import Mathlib

/-!
Verification of the SPPR daily oil-balance pipeline.

This file shallowly embeds the parts of the SPPR repository that the checked
properties talk about:

* `src/data_prep.py` — the value resolver `_safe_get_day_value` /
  `_safe_get_month_values` (override config, source table, defaults,
  deduplicated missing-column warnings);
* `src/calculate.py` — the `kchng` stage, the division-by-zero guard of
  `lodochny` (`K_otkachki_month`), the `V_upsv_yu` validation of `CPPN_1`, and
  the per-owner delivery apportionment of `rn_vankor`
  (`F_bp_vn`, `F_bp_suzun`, `F_bp_suzun_vankor`, `F_bp_vo`, `F_bp_kchng`);
* `src/main.py` — the per-day orchestration loop, as far as monthly
  accumulation is concerned.

Numbers are modelled as rationals; Python's `round` (banker's rounding) and
`int` (truncation toward zero) are modelled exactly on `ℚ`.  Python code that
can raise is embedded in `Except String`.  Print-based warnings are modelled
as an explicit warning-key cache (`WarnState`) plus a `Bool` flag reporting
whether the call emitted a warning.
-/

namespace SPPR

/-- Python's built-in `round` on a real argument: round half to even
(banker's rounding), modelled on `ℚ`. -/
def pyRound (q : ℚ) : ℤ :=
  let f : ℤ := ⌊q⌋
  let r : ℚ := q - (f : ℚ)
  if r < 1 / 2 then f
  else if 1 / 2 < r then f + 1
  else if f % 2 = 0 then f else f + 1

/-- Python's built-in `int` on a float argument: truncation toward zero. -/
def pyInt (q : ℚ) : ℤ := if 0 ≤ q then ⌊q⌋ else ⌈q⌉

/-- An element of a JSON list stored under `monthly_data` in `input.json`:
`None`, a float NaN, a number, or a string (`str (some q)` when Python's
`float` can parse it as `q`, `str none` when it cannot). -/
inductive PyElem
  | null
  | nan
  | num (q : ℚ)
  | str (conv : Option ℚ)

/-- A non-null JSON value stored under `monthly_data` in `input.json`:
a number, a string, or a list.  Absent fields and JSON `null` are both
modelled by `Option.none` at the use site, because `data_prep.py` only ever
tests `column_name in monthly_data and monthly_data[column_name] is not None`. -/
inductive PyVal
  | num (q : ℚ)
  | str (conv : Option ℚ)
  | list (xs : List PyElem)

/-- The master DataFrame (and its month/date caches, which are built from a
copy of it and therefore expose the same columns).  `dayLookup c d = none`
models "no row for this date, or the stored cell is NaN" (both return the
default in the source); `monthLookup` returns the column slice for a month,
with `none` entries standing for NaN cells. -/
structure Source where
  hasColumn : String → Bool
  dayLookup : String → ℤ → Option ℚ
  monthLookup : String → ℤ → List (Option ℚ)

/-- The module-level `_warning_cache` of `src/data_prep.py`: the set of
warning keys already printed during this run. -/
structure WarnState where
  keys : List String

/-- The error message standing for a Python `ValueError` raised by `float()`
or `np.array(..., dtype=float)` on an unconvertible value. -/
def valueError : String := "ValueError"

/-- The deduplication key used by `_safe_get_day_value`
(src/data_prep.py line 255): `"missing_column_day_" + column_name`. -/
def missing_column_day_key (column_name : String) : String :=
  "missing_column_day_" ++ column_name

/-- The deduplication key used by `_safe_get_month_values`
(src/data_prep.py line 181): `"missing_column_" + column_name`. -/
def missing_column_key (column_name : String) : String :=
  "missing_column_" ++ column_name

/-- Model of `float(val) if val is not None and pd.notna(val) else default`
(src/data_prep.py lines 236-239): `None` and NaN give the default, numbers
and numeric strings convert, a non-numeric string raises `ValueError`. -/
def pyFloatOrDefault (el : PyElem) (default : ℚ) : Except String ℚ :=
  match el with
  | .null => .ok default
  | .nan => .ok default
  | .num q => .ok q
  | .str (some q) => .ok q
  | .str none => .error valueError

/-- Conversion of one list element by `np.array(value, dtype=float)`
(src/data_prep.py line 152): `None` and NaN become NaN (modelled `none`),
numbers and numeric strings convert, a non-numeric string raises. -/
def elemToFloat (el : PyElem) : Except String (Option ℚ) :=
  match el with
  | .null => .ok none
  | .nan => .ok none
  | .num q => .ok (some q)
  | .str (some q) => .ok (some q)
  | .str none => .error valueError

/-- Model of `np.array(value, dtype=float)` on a config list. -/
def npArrayFloat (xs : List PyElem) : Except String (List (Option ℚ)) :=
  xs.mapM elemToFloat

/-- The source-table tail of `_safe_get_day_value`
(src/data_prep.py lines 244-271): if the column exists, look the date up
(missing row or NaN cell gives the default); if the column is missing and the
field is also absent-or-null in `monthly_data`, print one deduplicated
warning keyed `missing_column_day_<col>` and return the default. -/
def day_source_part (monthly_data : String → Option PyVal) (src : Source)
    (date_day : ℤ) (column_name : String) (default : ℚ) (st : WarnState) :
    ℚ × WarnState × Bool :=
  if src.hasColumn column_name then
    match src.dayLookup column_name date_day with
    | some v => (v, st, false)
    | none => (default, st, false)
  else
    match monthly_data column_name with
    | none =>
      let key := missing_column_day_key column_name
      if key ∈ st.keys then (default, st, false)
      else (default, ⟨key :: st.keys⟩, true)
    | some _ => (default, st, false)

/-- Embedding of `_safe_get_day_value` (src/data_prep.py lines 194-271).
`date_day` is the day of month of the queried date (`date.day`).  The result
is `(value, new warning cache, warned?)`, or `.error` when the Python code
raises.  Branches, in source order: a non-empty configured list is indexed at
`day - 1` (out of range falls back to the last element), with the selected
element passed through `pyFloatOrDefault`; a configured number is returned
for any date; anything else falls through to the source table. -/
def safe_get_day_value (monthly_data : String → Option PyVal) (src : Source)
    (date_day : ℤ) (column_name : String) (default : ℚ) (st : WarnState) :
    Except String (ℚ × WarnState × Bool) :=
  match monthly_data column_name with
  | some (.list xs) =>
    if 0 < xs.length then
      let day_index := date_day - 1
      if 0 ≤ day_index ∧ day_index < (xs.length : ℤ) then
        match xs.get? day_index.toNat with
        | some el =>
          match pyFloatOrDefault el default with
          | .ok v => .ok (v, st, false)
          | .error e => .error e
        | none => .ok (default, st, false)
      else
        match xs.getLast? with
        | some el =>
          match pyFloatOrDefault el default with
          | .ok v => .ok (v, st, false)
          | .error e => .error e
        | none => .ok (default, st, false)
    else .ok (day_source_part monthly_data src date_day column_name default st)
  | some (.num q) => .ok (q, st, false)
  | some (.str _) => .ok (day_source_part monthly_data src date_day column_name default st)
  | none => .ok (day_source_part monthly_data src date_day column_name default st)

/-- The cache/source tail of `_safe_get_month_values`
(src/data_prep.py lines 159-191).  `cacheHasMonth` models
"`_monthly_cache` is initialised and holds the queried month": in that path a
missing column returns the default with NO warning; only the direct-DataFrame
fallback prints the deduplicated `missing_column_<col>` warning, and only
when the field is also absent-or-null in `monthly_data`. -/
def month_source_part (monthly_data : String → Option PyVal) (src : Source)
    (month : ℤ) (column_name : String) (default : List (Option ℚ))
    (cacheHasMonth : Bool) (st : WarnState) :
    List (Option ℚ) × WarnState × Bool :=
  if cacheHasMonth then
    if src.hasColumn column_name then (src.monthLookup column_name month, st, false)
    else (default, st, false)
  else if src.hasColumn column_name then
    (src.monthLookup column_name month, st, false)
  else
    match monthly_data column_name with
    | none =>
      let key := missing_column_key column_name
      if key ∈ st.keys then (default, st, false)
      else (default, ⟨key :: st.keys⟩, true)
    | some _ => (default, st, false)

/-- Embedding of `_safe_get_month_values` (src/data_prep.py lines 120-191).
A configured list goes through `np.array(value, dtype=float)`; a configured
number `x` yields the one-element array `[x]`; any other configured non-null
scalar goes through `float(value)` — numeric strings convert, unconvertible
values raise `ValueError`; an absent-or-null field falls to the cache/source. -/
def safe_get_month_values (monthly_data : String → Option PyVal) (src : Source)
    (month : ℤ) (column_name : String) (default : List (Option ℚ))
    (cacheHasMonth : Bool) (st : WarnState) :
    Except String (List (Option ℚ) × WarnState × Bool) :=
  match monthly_data column_name with
  | some (.list xs) =>
    match npArrayFloat xs with
    | .ok arr => .ok (arr, st, false)
    | .error e => .error e
  | some (.num q) => .ok ([some q], st, false)
  | some (.str (some q)) => .ok ([some q], st, false)
  | some (.str none) => .error valueError
  | none => .ok (month_source_part monthly_data src month column_name default cacheHasMonth st)

/-- Embedding of `calculate.kchng` (src/calculate.py lines 207-220).
Inputs arrive already resolved: `Q_kchng_day` is the day value (scalar after
`_to_float`), `Q_kchng` and `G_kchng_data` are month arrays. -/
structure KchngResult where
  Q_kchng_month : ℚ
  G_kchng : ℚ
  G_kchng_month : ℚ

/-- `calculate.kchng`: `Q_kchng_month = Q_kchng.sum()`, `G_kchng =
Q_kchng_day`, and `G_kchng_month = G_kchng_data.sum() + G_kchng` — the
monthly total is the carry-over data sum plus the CURRENT day's value. -/
def kchng (Q_kchng_day : ℚ) (Q_kchng : List ℚ) (G_kchng_data : List ℚ) : KchngResult :=
  { Q_kchng_month := Q_kchng.sum
    G_kchng := Q_kchng_day
    G_kchng_month := G_kchng_data.sum + Q_kchng_day }

/-- The orchestrator loop of `src/main.py` restricted to the `kchng` stage:
each date in the run is processed by one independent `calculate.kchng` call
with the same static month data; `dayVals` lists the resolved `Q_kchng_day`
values of the processed days in chronological order. -/
def run_kchng_days (Q_kchng : List ℚ) (G_kchng_data : List ℚ) (dayVals : List ℚ) :
    List KchngResult :=
  dayVals.map (fun v => kchng v Q_kchng G_kchng_data)

/-- Embedding of the `K_otkachki_month` computation of `calculate.lodochny`
(src/calculate.py lines 264-271): a zero or near-zero (absolute value below
`1e-10`) previous-month denominator keeps the currently configured
`K_otkachki` and prints a notice (second component `true`); otherwise the
ratio is computed.  The function is total: no exception path exists. -/
def lodochny_K_otkachki_month (Q_tagul_prev_month G_lodochni_upsv_yu_prev_month
    K_otkachki : ℚ) : ℚ × Bool :=
  if Q_tagul_prev_month = 0 ∨ |Q_tagul_prev_month| < 1 / 10 ^ 10 then
    (K_otkachki, true)
  else
    (G_lodochni_upsv_yu_prev_month / Q_tagul_prev_month, false)

/-- Embedding of the `V_upsv_yu` computation of `calculate.CPPN_1`
(src/calculate.py lines 366-383).  The candidate is the manual value when
supplied, else the previous day's value.  With `flag0 = false` (facility
running, `flag_list[0]` falsy) the candidate is range-checked against
`[prev - 1500, prev + 1500]`; out of range, the `manual_corrections` entry
(via `get_validation_value`) is used through Python's `int(...)` when
present, else the out-of-range candidate is kept.  With `flag0 = true` the
wider check has no effect and the candidate is returned. -/
def CPPN_1_V_upsv_yu (manual_V_upsv_yu : Option ℚ) (V_upsv_yu_prev : ℚ)
    (flag0 : Bool) (V_upsv_yu_correction : Option ℚ) : ℚ :=
  let V := manual_V_upsv_yu.getD V_upsv_yu_prev
  if flag0 then V
  else if V_upsv_yu_prev - 1500 ≤ V ∧ V ≤ V_upsv_yu_prev + 1500 then V
  else
    match V_upsv_yu_correction with
    | some c => ((pyInt c : ℤ) : ℚ)
    | none => V

/-- `delivery_days = [d for d in range(1, N + 1) if d % e == 0]`
(src/calculate.py line 498). -/
def deliveryDays (N e : ℤ) : List ℤ :=
  ((List.range' 1 N.toNat).map (fun d => (d : ℤ))).filter (fun d => d % e = 0)

/-- `F_bp_vn` of `calculate.rn_vankor` (src/calculate.py lines 467-475):
manual override wins; otherwise `base = round((F_vn / N) / 50) * 50`, paid on
days with `day < N - 2`, and `(F_vn - base * (N - 2)) / 2` on the rest. -/
def rn_vankor_F_bp_vn (manual_F_bp_vn : Option ℚ) (F_vn : ℚ) (N day : ℤ) : ℚ :=
  match manual_F_bp_vn with
  | some mv => mv
  | none =>
    let base : ℚ := (pyRound ((F_vn / (N : ℚ)) / 50) : ℚ) * 50
    if day < N - 2 then base else (F_vn - base * ((N : ℚ) - 2)) / 2

/-- `F_bp_suzun` of `calculate.rn_vankor` (src/calculate.py lines 479-488),
with `F_suzun = F_suzun_obsh - F_suzun_vankor` already formed: on days with
`day < N - 2` pay `base`; on the rest pay `F_suzun - (base * (N - 2)) / 2`
(note the parenthesisation: the subtraction is NOT inside the division). -/
def rn_vankor_F_bp_suzun (manual_F_bp_suzun : Option ℚ) (F_suzun : ℚ) (N day : ℤ) : ℚ :=
  match manual_F_bp_suzun with
  | some mv => mv
  | none =>
    let base : ℚ := (pyRound ((F_suzun / (N : ℚ)) / 50) : ℚ) * 50
    if day < N - 2 then base else F_suzun - (base * ((N : ℚ) - 2)) / 2

/-- `F_bp_suzun_vankor` of `calculate.rn_vankor` (src/calculate.py lines
459, 492-513).  Initialised to 0; below the 20000 threshold deliveries occur
on multiples of `e`, with `base = round((F / count) / 50) * 50` on every
delivery day but the last and `F - base * (count - 1)` on the last; at or
above the threshold the two-tail spread applies. -/
def rn_vankor_F_bp_suzun_vankor (manual_F_bp_suzun_vankor : Option ℚ)
    (F_suzun_vankor : ℚ) (N day e : ℤ) : ℚ :=
  match manual_F_bp_suzun_vankor with
  | some mv => mv
  | none =>
    if F_suzun_vankor < 20000 then
      let days := deliveryDays N e
      match days.getLast? with
      | none => 0
      | some last_day =>
        let c : ℤ := days.length
        let base : ℚ := (pyRound ((F_suzun_vankor / (c : ℚ)) / 50) : ℚ) * 50
        if day ∈ days then
          if day ≠ last_day then base
          else F_suzun_vankor - base * ((c : ℚ) - 1)
        else 0
    else
      let base : ℚ := (pyRound ((F_suzun_vankor / (N : ℚ)) / 50) : ℚ) * 50
      if day < N - 2 then base else (F_suzun_vankor - base * ((N : ℚ) - 2)) / 2

/-- `F_bp_vo` of `calculate.rn_vankor` (src/calculate.py lines 461, 561-580).
Below the threshold, identical in shape to `F_bp_suzun_vankor`; at or above,
`base` on days `day < N` and `F_vo - base * (N - 1)` on the last day. -/
def rn_vankor_F_bp_vo (manual_F_bp_vo : Option ℚ) (F_vo : ℚ) (N day e : ℤ) : ℚ :=
  match manual_F_bp_vo with
  | some mv => mv
  | none =>
    if F_vo < 20000 then
      let days := deliveryDays N e
      match days.getLast? with
      | none => 0
      | some last_day =>
        let c : ℤ := days.length
        let base : ℚ := (pyRound ((F_vo / (c : ℚ)) / 50) : ℚ) * 50
        if day ∈ days then
          if day ≠ last_day then base
          else F_vo - base * ((c : ℚ) - 1)
        else 0
    else
      let base : ℚ := (pyRound ((F_vo / (N : ℚ)) / 50) : ℚ) * 50
      if day < N then base else F_vo - base * ((N : ℚ) - 1)

/-- `F_bp_kchng` of `calculate.rn_vankor` (src/calculate.py lines 462,
588-607).  When `manual_F_kchng` is supplied it replaces `F_kchng` itself and
no branch assigns `F_bp_kchng`, which stays at its initialisation 0.  Below
the threshold, the last delivery day pays `(F_kchng - base * (count - 2)) /
2` (unlike its two siblings); at or above, `base` is computed from `F_vo`
rather than `F_kchng` (as in the source, line 606). -/
def rn_vankor_F_bp_kchng (manual_F_kchng : Option ℚ) (F_kchng F_vo : ℚ)
    (N day e : ℤ) : ℚ :=
  match manual_F_kchng with
  | some _ => 0
  | none =>
    if F_kchng < 20000 then
      let days := deliveryDays N e
      match days.getLast? with
      | none => 0
      | some last_day =>
        let c : ℤ := days.length
        let base : ℚ := (pyRound ((F_kchng / (c : ℚ)) / 50) : ℚ) * 50
        if day ∈ days then
          if day ≠ last_day then base
          else (F_kchng - base * ((c : ℚ) - 2)) / 2
        else 0
    else
      let base : ℚ := (pyRound ((F_vo / (N : ℚ)) / 50) : ℚ) * 50
      if day < N then base else F_kchng - base * ((N : ℤ) - 1)

/-- A source table with no columns at all (every field missing). -/
def src0 : Source :=
  { hasColumn := fun _ => false
    dayLookup := fun _ _ => none
    monthLookup := fun _ _ => [] }

/-- An override config with no usable entries (every field absent or null). -/
def cfg0 : String → Option PyVal := fun _ => none

/-- An override config mapping every field to the scalar number 7. -/
def cfgNum7 : String → Option PyVal := fun _ => some (PyVal.num 7)

/-- An override config mapping every field to the sequence [10, 20]. -/
def cfgSeq : String → Option PyVal :=
  fun _ => some (PyVal.list [PyElem.num 10, PyElem.num 20])

/-- An override config mapping every field to a list whose first element is
`None` and whose second (and last) element is NaN. -/
def cfgNullNan : String → Option PyVal :=
  fun _ => some (PyVal.list [PyElem.null, PyElem.nan])

/-- An override config mapping every field to a non-numeric string
(a value Python's `float()` cannot convert). -/
def cfgStrBad : String → Option PyVal := fun _ => some (PyVal.str none)

/-- An override config mapping every field to a numeric string parsed as 5. -/
def cfgStrNum : String → Option PyVal := fun _ => some (PyVal.str (some 5))

/-- A field name used in concrete witness runs. -/
def colF : String := "gtm_vn"

/-- The empty warning cache at the start of a run. -/
def st0 : WarnState := ⟨[]⟩

/-- C1: for every field with a non-null scalar number entry in the override
config's `monthly_data`, `_safe_get_day_value` returns that scalar as a float
for every date of the month and regardless of Source content (no warning, no
error), and `_safe_get_month_values` returns it as a single-element
sequence. -/
theorem C1_scalar_override (monthly_data : String → Option PyVal) (src : Source)
    (date_day month : ℤ) (column_name : String) (default : ℚ)
    (mdefault : List (Option ℚ)) (cacheHasMonth : Bool) (st : WarnState) (q : ℚ)
    (hcfg : monthly_data column_name = some (PyVal.num q)) :
    safe_get_day_value monthly_data src date_day column_name default st
      = .ok (q, st, false) ∧
    safe_get_month_values monthly_data src month column_name mdefault cacheHasMonth st
      = .ok ([some q], st, false) := by
  constructor <;> simp [safe_get_day_value, safe_get_month_values, hcfg]

/-- Witness for C1 at a concrete input: the override maps `gtm_vn` to the
scalar 7, and both operations return it for an empty source. -/
theorem C1_scalar_override_witness :
    cfgNum7 colF = some (PyVal.num 7) ∧
    safe_get_day_value cfgNum7 src0 15 colF 0 st0 = .ok (7, st0, false) ∧
    safe_get_month_values cfgNum7 src0 12 colF [] false st0
      = .ok ([some 7], st0, false) :=
  ⟨rfl, C1_scalar_override cfgNum7 src0 15 12 colF 0 [] false st0 7 rfl⟩

/-- C2: for a non-empty configured sequence, `_safe_get_day_value` returns
the element at index `day_of_month - 1` when `day_of_month <= L`, and the
last element when `day_of_month > L` (stated for numeric elements, the
element type of OverrideConfig sequences). -/
theorem C2_sequence_day (monthly_data : String → Option PyVal) (src : Source)
    (column_name : String) (default : ℚ) (st : WarnState)
    (xs : List PyElem) (date_day : ℤ) (q : ℚ)
    (hcfg : monthly_data column_name = some (PyVal.list xs))
    (hne : xs ≠ [])
    (hday : 1 ≤ date_day)
    (hin : date_day ≤ (xs.length : ℤ) →
      xs.get? (date_day - 1).toNat = some (PyElem.num q))
    (hout : (xs.length : ℤ) < date_day → xs.getLast? = some (PyElem.num q)) :
    safe_get_day_value monthly_data src date_day column_name default st
      = .ok (q, st, false) := by
  have hlen : 0 < xs.length := List.length_pos.mpr hne
  have htn : (date_day - 1).toNat = date_day.toNat - 1 := by omega
  by_cases hle : date_day ≤ (xs.length : ℤ)
  · have h0 : (0 : ℤ) ≤ date_day - 1 := by omega
    have h1 : date_day - 1 < (xs.length : ℤ) := by omega
    have hin' : xs[date_day.toNat - 1]? = some (PyElem.num q) := by
      rw [← htn, ← List.get?_eq_getElem?]
      exact hin hle
    simp [safe_get_day_value, hcfg, hlen, h0, h1, hin', pyFloatOrDefault]
  · have hlt : ¬(date_day - 1 < (xs.length : ℤ)) := by omega
    simp [safe_get_day_value, hcfg, hlen, hlt, hout (by omega), pyFloatOrDefault]

/-- Witness for C2: the sequence [10, 20] yields 20 on day 2 (in range) and
20 on day 31 (out of range, last element). -/
theorem C2_sequence_day_witness :
    safe_get_day_value cfgSeq src0 2 colF 0 st0 = .ok (20, st0, false) ∧
    safe_get_day_value cfgSeq src0 31 colF 0 st0 = .ok (20, st0, false) :=
  ⟨C2_sequence_day cfgSeq src0 colF 0 st0 [PyElem.num 10, PyElem.num 20] 2 20 rfl
      (List.cons_ne_nil _ _) (by norm_num) (fun _ => rfl)
      (fun h => absurd h (by norm_num)),
   C2_sequence_day cfgSeq src0 colF 0 st0 [PyElem.num 10, PyElem.num 20] 31 20 rfl
      (List.cons_ne_nil _ _) (by norm_num) (fun h => absurd h (by norm_num))
      (fun _ => rfl)⟩

/-- C10: when the element of a non-empty configured sequence selected for
the queried day (index `day_of_month - 1`, or the last element when that
index is out of range) is `None` or NaN, `_safe_get_day_value` returns the
default 0.0 instead of that element. -/
theorem C10_none_nan_default (monthly_data : String → Option PyVal) (src : Source)
    (column_name : String) (date_day : ℤ) (st : WarnState)
    (xs : List PyElem) (el : PyElem)
    (hcfg : monthly_data column_name = some (PyVal.list xs))
    (hne : xs ≠ [])
    (hsel : (if 0 ≤ date_day - 1 ∧ date_day - 1 < (xs.length : ℤ)
             then xs.get? (date_day - 1).toNat else xs.getLast?) = some el)
    (hel : el = PyElem.null ∨ el = PyElem.nan) :
    safe_get_day_value monthly_data src date_day column_name 0 st
      = .ok (0, st, false) := by
  have hlen : 0 < xs.length := List.length_pos.mpr hne
  have htn : (date_day - 1).toNat = date_day.toNat - 1 := by omega
  by_cases hc : 0 ≤ date_day - 1 ∧ date_day - 1 < (xs.length : ℤ)
  · rw [if_pos hc] at hsel
    have hsel' : xs[date_day.toNat - 1]? = some el := by
      rw [← htn, ← List.get?_eq_getElem?]
      exact hsel
    rcases hel with h | h <;> subst h <;>
      simp [safe_get_day_value, hcfg, hlen, hc.1, hc.2, hsel', pyFloatOrDefault]
  · rw [if_neg hc] at hsel
    rcases hel with h | h <;> subst h <;>
    · by_cases h1 : (1 : ℤ) ≤ date_day
      · have hlt : ¬(date_day - 1 < (xs.length : ℤ)) := by omega
        simp [safe_get_day_value, hcfg, hlen, hlt, hsel, pyFloatOrDefault]
      · have hlt : ¬(1 : ℤ) ≤ date_day := h1
        simp [safe_get_day_value, hcfg, hlen, hlt, hsel, pyFloatOrDefault]

/-- Witness for C10: the sequence [None, NaN] yields 0.0 on day 1 (None
selected in range) and 0.0 on day 5 (NaN selected as last element). -/
theorem C10_none_nan_default_witness :
    safe_get_day_value cfgNullNan src0 1 colF 0 st0 = .ok (0, st0, false) ∧
    safe_get_day_value cfgNullNan src0 5 colF 0 st0 = .ok (0, st0, false) :=
  ⟨C10_none_nan_default cfgNullNan src0 colF 1 st0 [PyElem.null, PyElem.nan]
      PyElem.null rfl (List.cons_ne_nil _ _) rfl (Or.inl rfl),
   C10_none_nan_default cfgNullNan src0 colF 5 st0 [PyElem.null, PyElem.nan]
      PyElem.nan rfl (List.cons_ne_nil _ _) rfl (Or.inr rfl)⟩

/-- The delivery-day schedule of a 30-day month with period 7. -/
theorem deliveryDays_30_7 : deliveryDays 30 7 = [7, 14, 21, 28] := by decide

/-- Per-day evaluation of `F_bp_kchng` at target 14350 over a 30-day month
with period 7: base 3600 on delivery days 7, 14, 21; 3575 on day 28. -/
theorem F_bp_kchng_day_14350 (day : ℤ) :
    rn_vankor_F_bp_kchng none 14350 0 30 day 7
      = if day ∈ ([7, 14, 21, 28] : List ℤ) then
          if day = 28 then 3575 else 3600
        else 0 := by
  simp only [rn_vankor_F_bp_kchng, deliveryDays_30_7]
  norm_num [pyRound]

/-- Per-day evaluation of `F_bp_suzun_vankor` at target 14350 over a 30-day
month with period 7: base 3600 on delivery days 7, 14, 21; remainder 3550 on
day 28. -/
theorem F_bp_suzun_vankor_day_14350 (day : ℤ) :
    rn_vankor_F_bp_suzun_vankor none 14350 30 day 7
      = if day ∈ ([7, 14, 21, 28] : List ℤ) then
          if day = 28 then 3550 else 3600
        else 0 := by
  simp only [rn_vankor_F_bp_suzun_vankor, deliveryDays_30_7]
  norm_num [pyRound]

/-- Per-day evaluation of `F_bp_vn` at total 14350 over a 30-day month:
base 500 while `day < 28`, half-remainder 175 on days 28, 29 and 30. -/
theorem F_bp_vn_day_14350 (day : ℤ) :
    rn_vankor_F_bp_vn none 14350 30 day = if day < 28 then 500 else 175 := by
  simp only [rn_vankor_F_bp_vn]
  norm_num [pyRound]

/-- C3 (failing input for `F_bp_kchng`): at monthly target 14350 (< 20000),
a 30-day month, delivery period 7 and no manual override, the base is
round((14350 / 4) / 50) * 50 = 3600, the non-last delivery days 7, 14 and 21
pay the base, but the last delivery day 28 pays (14350 - 3600 * 2) / 2 =
3575 instead of absorbing the remainder 14350 - 3600 * 3 = 3550, so the
month sums to 14375 ≠ 14350 — while the sibling `F_bp_suzun_vankor` at the
same input does sum to the target exactly. -/
theorem C3_kchng_remainder_eval :
    rn_vankor_F_bp_kchng none 14350 0 30 28 7 = 3575 ∧
    ((List.range' 1 30).map
        (fun d => rn_vankor_F_bp_kchng none 14350 0 30 ((d : ℕ) : ℤ) 7)).sum = 14375 ∧
    ((List.range' 1 30).map
        (fun d => rn_vankor_F_bp_suzun_vankor none 14350 30 ((d : ℕ) : ℤ) 7)).sum
      = 14350 ∧
    (14375 : ℚ) ≠ 14350 := by
  refine ⟨?_, ?_, ?_, by norm_num⟩
  · rw [F_bp_kchng_day_14350]
    norm_num
  · simp only [show List.range' 1 30
        = [1, 2, 3, 4, 5, 6, 7, 8, 9, 10, 11, 12, 13, 14, 15, 16, 17, 18, 19,
           20, 21, 22, 23, 24, 25, 26, 27, 28, 29, 30] from rfl,
      List.map_cons, List.map_nil, List.sum_cons, List.sum_nil,
      F_bp_kchng_day_14350]
    norm_num
  · simp only [show List.range' 1 30
        = [1, 2, 3, 4, 5, 6, 7, 8, 9, 10, 11, 12, 13, 14, 15, 16, 17, 18, 19,
           20, 21, 22, 23, 24, 25, 26, 27, 28, 29, 30] from rfl,
      List.map_cons, List.map_nil, List.sum_cons, List.sum_nil,
      F_bp_suzun_vankor_day_14350]
    norm_num

/-- C4 (failing input for the at/above-threshold spread): at monthly total
14350 over a 30-day month with no manual override, the base is
round((14350 / 30) / 50) * 50 = 500, but day 28 = N - 2 (not one of the last
two days) already pays the half-remainder (14350 - 500 * 28) / 2 = 175
instead of the base, the half-remainder is paid on THREE days, and the month
sums to 14025 ≠ 14350; moreover `F_bp_suzun` at the same total pays
14350 - (500 * 28) / 2 = 7350 on the tail days instead of the claimed
(14350 - 500 * 28) / 2 = 175. -/
theorem C4_two_tail_eval :
    rn_vankor_F_bp_vn none 14350 30 28 = 175 ∧
    (pyRound ((14350 / (30 : ℚ)) / 50) : ℚ) * 50 = 500 ∧
    ((List.range' 1 30).map
        (fun d => rn_vankor_F_bp_vn none 14350 30 ((d : ℕ) : ℤ))).sum = 14025 ∧
    rn_vankor_F_bp_suzun none 14350 30 29 = 7350 ∧
    (175 : ℚ) ≠ 500 ∧ (14025 : ℚ) ≠ 14350 ∧
    (7350 : ℚ) ≠ (14350 - 500 * 28) / 2 := by
  refine ⟨?_, ?_, ?_, ?_, by norm_num, by norm_num, by norm_num⟩
  · rw [F_bp_vn_day_14350]
    norm_num
  · norm_num [pyRound]
  · simp only [show List.range' 1 30
        = [1, 2, 3, 4, 5, 6, 7, 8, 9, 10, 11, 12, 13, 14, 15, 16, 17, 18, 19,
           20, 21, 22, 23, 24, 25, 26, 27, 28, 29, 30] from rfl,
      List.map_cons, List.map_nil, List.sum_cons, List.sum_nil,
      F_bp_vn_day_14350]
    norm_num
  · simp only [rn_vankor_F_bp_suzun]
    norm_num [pyRound]

/-- C5 counterexample: with the facility-running flag, previous value 1000
and manual candidate 3000 (out of range), a manual-corrections entry 2400.5
is NOT returned as such — the code returns `int(2400.5) = 2400`. -/
theorem C5_counterexample :
    CPPN_1_V_upsv_yu (some 3000) 1000 false (some (4801 / 2)) = 2400 ∧
    (2400 : ℚ) ≠ 4801 / 2 := by
  refine ⟨?_, by norm_num⟩
  norm_num [CPPN_1_V_upsv_yu, pyInt]

/-- C5 (amended): with `flag_list[0]` falsy and the candidate (manual value
if supplied, else the previous day's value) outside
[prev - 1500, prev + 1500], the returned `V_upsv_yu` equals the
manual-corrections entry truncated by Python's `int(...)` when the entry is
present (hence equals the entry itself whenever the entry is an integer),
and equals the out-of-range candidate unchanged when it is absent; in both
cases the (total) function returns a value rather than aborting. -/
theorem C5_out_of_range_correction (V_upsv_yu_prev : ℚ) (manual corr : Option ℚ)
    (hout : ¬(V_upsv_yu_prev - 1500 ≤ manual.getD V_upsv_yu_prev ∧
              manual.getD V_upsv_yu_prev ≤ V_upsv_yu_prev + 1500)) :
    (∀ c : ℚ, corr = some c →
       CPPN_1_V_upsv_yu manual V_upsv_yu_prev false corr = ((pyInt c : ℤ) : ℚ)) ∧
    (∀ c : ℤ, corr = some ((c : ℚ)) →
       CPPN_1_V_upsv_yu manual V_upsv_yu_prev false corr = (c : ℚ)) ∧
    (corr = none →
       CPPN_1_V_upsv_yu manual V_upsv_yu_prev false corr
         = manual.getD V_upsv_yu_prev) := by
  have hred : CPPN_1_V_upsv_yu manual V_upsv_yu_prev false corr
      = match corr with
        | some c => ((pyInt c : ℤ) : ℚ)
        | none => manual.getD V_upsv_yu_prev := by
    simp only [CPPN_1_V_upsv_yu]
    rw [if_neg Bool.false_ne_true, if_neg hout]
  refine ⟨fun c hc => ?_, fun c hc => ?_, fun hc => ?_⟩
  · rw [hred, hc]
  · rw [hred, hc]
    simp only [pyInt]
    split_ifs <;> simp
  · rw [hred, hc]

/-- Witness for C5 (amended): previous value 1000, manual candidate 3000,
integral correction entry 2400 is returned (as int(2400) = 2400). -/
theorem C5_out_of_range_correction_witness :
    CPPN_1_V_upsv_yu (some 3000) 1000 false (some 2400) = ((pyInt 2400 : ℤ) : ℚ) :=
  (C5_out_of_range_correction 1000 (some 3000) (some 2400)
    (by norm_num [Option.getD_some])).1 2400 rfl

/-- C6: in `lodochny`, a previous-month denominator that is zero or of
absolute value below 1e-10 makes `K_otkachki_month` fall back unchanged to
the currently configured `K_otkachki` with a logged notice (flag `true`),
and otherwise `K_otkachki_month` is the ratio
`G_lodochni_upsv_yu_prev_month / Q_tagul_prev_month`; the computation is a
total function, so no exception is raised in either case. -/
theorem C6_degenerate_ratio (Q_tagul_prev_month G_lodochni_upsv_yu_prev_month
    K_otkachki : ℚ) :
    (Q_tagul_prev_month = 0 ∨ |Q_tagul_prev_month| < 1 / 10 ^ 10 →
      lodochny_K_otkachki_month Q_tagul_prev_month G_lodochni_upsv_yu_prev_month
        K_otkachki = (K_otkachki, true)) ∧
    (¬(Q_tagul_prev_month = 0 ∨ |Q_tagul_prev_month| < 1 / 10 ^ 10) →
      lodochny_K_otkachki_month Q_tagul_prev_month G_lodochni_upsv_yu_prev_month
        K_otkachki
        = (G_lodochni_upsv_yu_prev_month / Q_tagul_prev_month, false)) := by
  constructor
  · intro h
    unfold lodochny_K_otkachki_month
    rw [if_pos h]
  · intro h
    unfold lodochny_K_otkachki_month
    rw [if_neg h]

/-- Witness for C6: denominator 0 keeps the configured ratio 5 and logs the
notice; denominator 2 computes the ratio 3 / 2 without a notice. -/
theorem C6_degenerate_ratio_witness :
    lodochny_K_otkachki_month 0 3 5 = (5, true) ∧
    lodochny_K_otkachki_month 2 3 5 = (3 / 2, false) :=
  ⟨(C6_degenerate_ratio 0 3 5).1 (Or.inl rfl),
   (C6_degenerate_ratio 2 3 5).2 (by norm_num)⟩

/-- C7 counterexample: with no carry-over data and day values 1 and 1, the
monthly total computed after processing both days is 1 — not the carry-over
prefix sum plus the sum of the two processed days, which would be 2. -/
theorem C7_counterexample :
    ((run_kchng_days [] [] [1, 1]).map (fun r => r.G_kchng_month)).getLast?
      = some 1 ∧
    ([] : List ℚ).sum + ([(1 : ℚ), 1].take 2).sum = 2 ∧ (1 : ℚ) ≠ 2 := by
  refine ⟨by norm_num [run_kchng_days, kchng], by norm_num, by norm_num⟩

/-- C7 (amended): after the orchestrator has processed days 1..d of the run,
the monthly total `G_kchng_month` as computed on day d equals the carry-over
data sum plus the value of day d ALONE — values computed for the earlier
days of the run are not folded in (the code expects the carry-over data to
already contain them). -/
theorem C7_day_total (Q_kchng G_kchng_data dayVals : List ℚ) (d : ℕ)
    (h : d < dayVals.length) :
    ((run_kchng_days Q_kchng G_kchng_data dayVals).map
        (fun r => r.G_kchng_month)).get? d
      = some (G_kchng_data.sum + dayVals.get ⟨d, h⟩) := by
  simp [run_kchng_days, kchng, List.get?_eq_getElem?, List.getElem?_eq_getElem h]

/-- Witness for C7 (amended) at day 2 of a two-day run. -/
theorem C7_day_total_witness :
    ((run_kchng_days [] [] [1, 1]).map (fun r => r.G_kchng_month)).get? 1
      = some (([] : List ℚ).sum + [(1 : ℚ), 1].get ⟨1, by norm_num⟩) :=
  C7_day_total [] [] [1, 1] 1 (by norm_num)

/-- C8 counterexample: a field absent from both the override config and the
source, queried once through the month operation (cache unavailable) and
once through the day operation within the same run, triggers TWO warnings —
one per query kind, because the two operations deduplicate under different
keys ("missing_column_<f>" versus "missing_column_day_<f>"). -/
theorem C8_counterexample :
    safe_get_month_values cfg0 src0 5 colF [] false st0
      = .ok ([], ⟨[missing_column_key colF]⟩, true) ∧
    safe_get_day_value cfg0 src0 3 colF 0 ⟨[missing_column_key colF]⟩
      = .ok (0, ⟨[missing_column_day_key colF, missing_column_key colF]⟩, true) :=
  ⟨rfl, rfl⟩

/-- C8 (amended): for a field absent from both the override config and the
source, the month operation returns the empty default and the day operation
returns the default 0.0; warnings are deduplicated per field AND per query
kind: the day operation warns exactly when its key is not yet cached (so at
most once per field per run), the month fallback path warns exactly when its
distinct key is not yet cached (at most once more), and the month operation
emits no warning at all when the monthly cache holds the queried month. -/
theorem C8_missing_field_warnings (monthly_data : String → Option PyVal)
    (src : Source) (column_name : String) (month date_day : ℤ) (st : WarnState)
    (hcfg : monthly_data column_name = none)
    (hsrc : src.hasColumn column_name = false) :
    (missing_column_day_key column_name ∈ st.keys →
       safe_get_day_value monthly_data src date_day column_name 0 st
         = .ok (0, st, false)) ∧
    (missing_column_day_key column_name ∉ st.keys →
       safe_get_day_value monthly_data src date_day column_name 0 st
         = .ok (0, ⟨missing_column_day_key column_name :: st.keys⟩, true)) ∧
    (missing_column_key column_name ∈ st.keys →
       safe_get_month_values monthly_data src month column_name [] false st
         = .ok ([], st, false)) ∧
    (missing_column_key column_name ∉ st.keys →
       safe_get_month_values monthly_data src month column_name [] false st
         = .ok ([], ⟨missing_column_key column_name :: st.keys⟩, true)) ∧
    safe_get_month_values monthly_data src month column_name [] true st
      = .ok ([], st, false) := by
  refine ⟨fun h => ?_, fun h => ?_, fun h => ?_, fun h => ?_, ?_⟩
  · simp [safe_get_day_value, day_source_part, hcfg, hsrc, h]
  · simp [safe_get_day_value, day_source_part, hcfg, hsrc, h]
  · simp [safe_get_month_values, month_source_part, hcfg, hsrc, h]
  · simp [safe_get_month_values, month_source_part, hcfg, hsrc, h]
  · simp [safe_get_month_values, month_source_part, hcfg, hsrc]

/-- Witness for C8 (amended): the first day query for a missing field warns;
fed its own output state, the second identical query does not. -/
theorem C8_missing_field_warnings_witness :
    safe_get_day_value cfg0 src0 3 colF 0 st0
      = .ok (0, ⟨missing_column_day_key colF :: st0.keys⟩, true) ∧
    safe_get_day_value cfg0 src0 4 colF 0 ⟨missing_column_day_key colF :: st0.keys⟩
      = .ok (0, ⟨missing_column_day_key colF :: st0.keys⟩, false) :=
  ⟨(C8_missing_field_warnings cfg0 src0 colF 5 3 st0 rfl rfl).2.1 (by decide),
   (C8_missing_field_warnings cfg0 src0 colF 5 4
      ⟨missing_column_day_key colF :: st0.keys⟩ rfl rfl).1 (by decide)⟩

/-- C9 counterexample: an unconvertible override value (a non-numeric
string) makes `_safe_get_month_values` raise a `ValueError` to the caller
instead of failing softly to the default. -/
theorem C9_counterexample :
    safe_get_month_values cfgStrBad src0 5 colF [] false st0
      = .error valueError := rfl

/-- C9 (amended): the month operation coerces numeric scalars and numeric
strings to a one-element float array, but an unconvertible scalar raises
`ValueError` to the caller; the day operation never attempts the coercion —
any non-numeric non-list override value is ignored and resolution falls
through to the source (soft default when the column is missing, without a
warning, since the field is present in the config). -/
theorem C9_coercion (monthly_data : String → Option PyVal) (src : Source)
    (column_name : String) (month date_day : ℤ) (default : ℚ)
    (mdefault : List (Option ℚ)) (cacheHasMonth : Bool) (st : WarnState)
    (q : ℚ) (o : Option ℚ) :
    (monthly_data column_name = some (PyVal.str (some q)) →
      safe_get_month_values monthly_data src month column_name mdefault
          cacheHasMonth st
        = .ok ([some q], st, false)) ∧
    (monthly_data column_name = some (PyVal.str none) →
      safe_get_month_values monthly_data src month column_name mdefault
          cacheHasMonth st
        = .error valueError) ∧
    (monthly_data column_name = some (PyVal.str o) →
      src.hasColumn column_name = false →
      safe_get_day_value monthly_data src date_day column_name default st
        = .ok (default, st, false)) := by
  refine ⟨fun h => ?_, fun h => ?_, fun h hs => ?_⟩
  · simp [safe_get_month_values, h]
  · simp [safe_get_month_values, h]
  · simp [safe_get_day_value, day_source_part, h, hs]

/-- Witness for C9 (amended): a numeric string coerces in the month
operation, and a non-numeric string falls softly through the day
operation. -/
theorem C9_coercion_witness :
    safe_get_month_values cfgStrNum src0 5 colF [] false st0
      = .ok ([some 5], st0, false) ∧
    safe_get_day_value cfgStrBad src0 3 colF 0 st0 = .ok (0, st0, false) :=
  ⟨(C9_coercion cfgStrNum src0 colF 5 3 0 [] false st0 5 none).1 rfl,
   (C9_coercion cfgStrBad src0 colF 5 3 0 [] false st0 0 none).2.2 rfl rfl⟩

end SPPR
